import Mathlib

/-!
Verification of the Fenix TFT cloud integration core
(`custom_components/fenix_tft/api.py` and
`custom_components/fenix_tft/coordinator.py`) against its
natural-language specification.

The Python code is shallowly embedded: each network call's outcome is a
field of an explicit environment record, mutable instance state becomes
an explicit state record threaded through the functions, exceptions
become `Except`, and Python strings are Lean `String`s manipulated
through their character lists.  Floats that the code only ever adds,
subtracts and compares (monotonic-clock instants, token lifetimes) are
modelled as `Int`; JSON numbers that the code divides (temperatures) are
modelled as `Rat`.
-/

namespace FenixTFT

/-! ## Generic string helpers (modelling Python `str` operations) -/

/-- Split a character list at the first occurrence of `c`; `none` when
`c` does not occur.  Models Python `s.split(c, 1)` / `s.partition(c)`. -/
def splitAtFirst (c : Char) : List Char → Option (List Char × List Char)
  | [] => none
  | x :: xs =>
    if x = c then some ([], xs)
    else
      match splitAtFirst c xs with
      | none => none
      | some (a, b) => some (x :: a, b)

/-- Tail of `splitAll`: accumulates the current chunk in reverse. -/
def splitAllAux (c : Char) : List Char → List Char → List (List Char)
  | acc, [] => [acc.reverse]
  | acc, x :: xs =>
    if x = c then acc.reverse :: splitAllAux c [] xs
    else splitAllAux c (x :: acc) xs

/-- Split a character list at every occurrence of `c`
(Python `s.split(c)`). -/
def splitAll (c : Char) (l : List Char) : List (List Char) :=
  splitAllAux c [] l

/-- Does `pat` occur as a contiguous sublist of `l`?  Models Python
substring containment. -/
def containsSub (pat : List Char) : List Char → Bool
  | [] => pat.isPrefixOf []
  | x :: xs => pat.isPrefixOf (x :: xs) || containsSub pat xs

/-- Python truthiness of an optional string: present and non-empty. -/
def truthyS : Option String → Bool
  | none => false
  | some s => !(s.data.isEmpty)

/-! ## Base64url and PKCE (`api.py`, `generate_pkce_pair`) -/

/-- Alphabet of `base64.urlsafe_b64encode`: standard base64 with `+`,`/`
replaced by `-`,`_`. -/
def b64Alphabet : List Char :=
  "ABCDEFGHIJKLMNOPQRSTUVWXYZabcdefghijklmnopqrstuvwxyz0123456789-_".data

/-- Character for a six-bit group. -/
def alphaAt (i : Nat) : Char := b64Alphabet.getD i 'A'

/-- Base64url encoding of a byte list, with `=` padding, exactly as
`base64.urlsafe_b64encode` produces it. -/
def b64Encode : List Nat → List Char
  | b1 :: b2 :: b3 :: rest =>
    let n := b1 * 65536 + b2 * 256 + b3
    alphaAt (n / 262144 % 64) :: alphaAt (n / 4096 % 64) ::
      alphaAt (n / 64 % 64) :: alphaAt (n % 64) :: b64Encode rest
  | [b1, b2] =>
    let n := b1 * 1024 + b2 * 4
    [alphaAt (n / 4096 % 64), alphaAt (n / 64 % 64), alphaAt (n % 64), '=']
  | [b1] =>
    let n := b1 * 16
    [alphaAt (n / 64 % 64), alphaAt (n % 64), '=', '=']
  | [] => []

/-- Python `s.rstrip("=")` on a character list. -/
def rstripEq (l : List Char) : List Char :=
  (l.reverse.dropWhile (fun c => c = '=')).reverse

/-- Embedding of `generate_pkce_pair` (`api.py` lines 66-74).
`secrets.token_urlsafe(96)` is modelled as base64url encoding (padding
stripped) of the 96 `randomBytes` supplied by the environment, and
SHA-256 is the abstract digest function `sha256` (the claim under test
constrains only the encoding around the digest, not the digest itself).
Returns `(code_verifier, code_challenge)`. -/
def generate_pkce_pair (sha256 : List Nat → List Nat) (randomBytes : List Nat) :
    String × String :=
  let code_verifier : List Char := (rstripEq (b64Encode randomBytes)).take 128
  let code_challenge : List Char :=
    rstripEq (b64Encode (sha256 (code_verifier.map Char.toNat)))
  (String.mk code_verifier, String.mk code_challenge)

/-- Modelled from the spec: `base64url_nopad(bytes)` — the base64url
encoding of a byte string with the `=` padding stripped. -/
def base64url_nopad (bytes : List Nat) : List Char :=
  rstripEq (b64Encode bytes)

/-- Modelled from the spec: a URL-safe character
(letters, digits, `-`, `_`). -/
def isUrlSafeChar (c : Char) : Bool :=
  (('A' ≤ c) && (c ≤ 'Z')) || (('a' ≤ c) && (c ≤ 'z')) ||
    (('0' ≤ c) && (c ≤ '9')) || (c = '-') || (c = '_')

/-! ## URL helpers (modelling `urllib.parse`) -/

/-- Identity-provider base URL (`const.py` `API_IDENTITY`). -/
def API_IDENTITY : String := "https://vs2-fe-identity-prod.azurewebsites.net"

/-- Does the string carry a URL scheme (contains `://`)? -/
def hasScheme (s : String) : Bool := containsSub "://".data s.data

/-- `urllib.parse.urljoin(base, url)`: an absolute `url` (one with a
scheme) replaces the base; otherwise the location is resolved against
the base (modelled as concatenation — the claims only inspect the
scheme and the fragment of the joined URL, which concatenation
preserves). -/
def urljoin (base url : String) : String :=
  if hasScheme url then url else String.mk (base.data ++ url.data)

/-- Python `s.startswith(pre)`. -/
def strStartsWith (s pre : String) : Bool := pre.data.isPrefixOf s.data

/-- Fragment of a URL: everything after the first `#`
(`urllib.parse.urlparse(...).fragment`). -/
def fragmentOf (s : String) : List Char :=
  match splitAtFirst '#' s.data with
  | none => []
  | some (_, f) => f

/-- One `k=v` pair of a query string; pairs without `=` or with a blank
value are dropped, as `urllib.parse.parse_qs` does by default. -/
def parseQsPair (l : List Char) : Option (String × String) :=
  match splitAtFirst '=' l with
  | none => none
  | some (k, v) => if v.isEmpty then none else some (String.mk k, String.mk v)

/-- `urllib.parse.parse_qs` over a fragment, keeping pair order.
Percent-decoding is omitted: every value the code compares is generated
from the URL-safe alphabet, on which decoding is the identity. -/
def parse_qs (frag : List Char) : List (String × String) :=
  (splitAll '&' frag).filterMap parseQsPair

/-- `fragment.get(key, [None])[0]`: first value listed for `key`. -/
def fragLookup (frag : List Char) (key : String) : Option String :=
  ((parse_qs frag).find? (fun p => p.1 == key)).map (fun p => p.2)

/-! ## AuthSession state and environment (`api.py`, `FenixTFTApi`) -/

/-- Mutable token state of `FenixTFTApi` (`__init__`, lines 103-114):
`_access_token`, `_refresh_token`, `_token_expires`, `_sub`,
`_login_in_progress`. -/
structure ApiState where
  access_token : Option String
  refresh_token : Option String
  token_expires : Option Int
  sub : Option String
  login_in_progress : Bool
deriving DecidableEq, Repr

/-- Outcomes of the external world for one `_ensure_token` call: the
process randomness, the clock, and each HTTP response the login /
refresh flows may issue.  HTML scraping of the login page
(BeautifulSoup) is abstracted to the two extracted input values. -/
structure ApiEnv where
  sha256 : List Nat → List Nat
  randomBytes : List Nat
  stateRand : String
  nonceRand : String
  now : Int
  authStatus : Nat
  authLocation : Option String
  loginPageStatus : Nat
  loginPageCsrf : Option String
  loginPageReturnUrl : Option String
  formStatus : Nat
  formLocation : Option String
  callbackFollowLocation : Option String
  tokenStatus : Nat
  tokenAccess : Option String
  tokenRefresh : Option String
  tokenExpiresIn : Option Int
  refreshStatus : Nat
  refreshAccess : Option String
  refreshRefresh : Option String
  refreshExpiresIn : Option Int

/-- `_start_authorization` (lines 172-206): generate the PKCE pair,
`state` and `nonce`, issue the authorization request and return
`(login_url, code_verifier, state, nonce)`, or four `None`s unless the
response is a 302 with a `Location` header. -/
def startAuthorization (env : ApiEnv) :
    Option String × Option String × Option String × Option String :=
  let pair := generate_pkce_pair env.sha256 env.randomBytes
  match env.authLocation with
  | none => (none, none, none, none)
  | some loc =>
    if env.authStatus = 302 && !loc.data.isEmpty then
      (some (urljoin API_IDENTITY loc), some pair.1,
        some env.stateRand, some env.nonceRand)
    else (none, none, none, none)

/-- `_fetch_login_page` (lines 208-240): skip non-HTTP URLs, require a
200, and return the CSRF token and `ReturnUrl` form values only when
both are present and non-empty. -/
def fetchLoginPage (env : ApiEnv) (login_url : String) :
    Option String × Option String :=
  if !(strStartsWith login_url "http") then (none, none)
  else if env.loginPageStatus ≠ 200 then (none, none)
  else
    match env.loginPageCsrf, env.loginPageReturnUrl with
    | some c, some r =>
      if !c.data.isEmpty && !r.data.isEmpty then (some c, some r)
      else (none, none)
    | _, _ => (none, none)

/-- `_submit_login_form` (lines 242-265): expect a 302 with a
`Location`; return the joined callback URL. -/
def submitLoginForm (env : ApiEnv) : Option String :=
  match env.formLocation with
  | none => none
  | some loc =>
    if env.formStatus = 302 && !loc.data.isEmpty then
      some (urljoin API_IDENTITY loc)
    else none

/-- The URL whose fragment `_handle_callback` parses: a `fenix://`
callback is parsed directly, anything else is fetched once more and the
`Location` header (or, absent one, the callback URL itself) is parsed
(lines 271-280). -/
def resolveCallback (env : ApiEnv) (callback_url : String) : String :=
  if strStartsWith callback_url "fenix://" then callback_url
  else env.callbackFollowLocation.getD callback_url

/-- `_handle_callback` (lines 267-296): extract `code`, `id_token` and
`state` from the URL fragment; fail unless the returned state equals
the generated one and both tokens are present. -/
def handleCallback (env : ApiEnv) (callback_url state : String) :
    Option String × Option String :=
  let frag := fragmentOf (resolveCallback env callback_url)
  let auth_code := fragLookup frag "code"
  let id_token := fragLookup frag "id_token"
  let returned_state := fragLookup frag "state"
  if (returned_state == some state) && truthyS auth_code && truthyS id_token then
    (auth_code, id_token)
  else (none, none)

/-- `_exchange_tokens` (lines 298-324): on a non-200 reply raise without
touching state; otherwise store both tokens from the response *before*
checking them, raising if either is missing — the expiry is set only on
success. -/
def exchangeTokens (st : ApiState) (env : ApiEnv)
    (_auth_code _code_verifier : String) : ApiState × Except String Bool :=
  if env.tokenStatus ≠ 200 then (st, .error "Token request failed")
  else
    let st1 := { st with access_token := env.tokenAccess,
                         refresh_token := env.tokenRefresh }
    if truthyS st1.access_token && truthyS st1.refresh_token then
      ({ st1 with token_expires := some (env.now + env.tokenExpiresIn.getD 3600) },
        .ok true)
    else (st1, .error "Missing access or refresh token")

/-- Steps 1-4 of `login` (lines 331-345): authorization, login-page
fetch, the cached-session fast path, and the form post; yields
`(callback_url, code_verifier, state)` when control reaches
`_handle_callback`. -/
def loginSteps (env : ApiEnv) : Option (String × String × String) :=
  match startAuthorization env with
  | (some login_url, some code_verifier, some state, some nonce) =>
    if !login_url.data.isEmpty && !code_verifier.data.isEmpty &&
        !state.data.isEmpty && !nonce.data.isEmpty then
      let (csrf_token, return_url) := fetchLoginPage env login_url
      if !truthyS csrf_token && !truthyS return_url &&
          strStartsWith login_url "fenix://" then
        some (login_url, code_verifier, state)
      else
        match submitLoginForm env with
        | none => none
        | some callback_url => some (callback_url, code_verifier, state)
    else none
  | _ => none

/-- `login` (lines 326-357): run the flow; any failure (including an
exception from `_exchange_tokens`, which the `except` clause catches
after its partial mutation) yields `False`. -/
def login (st : ApiState) (env : ApiEnv) : Bool × ApiState :=
  match loginSteps env with
  | none => (false, st)
  | some (callback_url, code_verifier, state) =>
    let (auth_code, id_token) := handleCallback env callback_url state
    match auth_code, id_token with
    | some code, some idt =>
      if !code.data.isEmpty && !idt.data.isEmpty then
        match exchangeTokens st env code code_verifier with
        | (st1, .ok _) => (true, st1)
        | (st1, .error _) => (false, st1)
      else (false, st)
    | _, _ => (false, st)

/-- The validity test of `_ensure_token` line 146:
`self._token_expires and time.time() < self._token_expires - 60`
(note `0.0` is falsy). -/
def tokenStillValid (st : ApiState) (now : Int) : Bool :=
  match st.token_expires with
  | none => false
  | some e => !(e == 0) && decide (now < e - 60)

/-- The login branch of `_ensure_token` (lines 134-144): set the busy
flag, run `login`, always reset the flag, and raise when login reported
failure. -/
def ensureLoginBranch (st : ApiState) (env : ApiEnv) :
    Except String Unit × ApiState :=
  let r := login { st with login_in_progress := true } env
  let st2 := { r.2 with login_in_progress := false }
  if r.1 then (.ok (), st2) else (.error "Login failed", st2)

/-- The refresh branch of `_ensure_token` (lines 149-170): non-200 or a
body without `access_token` raises *without modifying state*; on
success the access token is replaced, the refresh token only if the
response carried one, and the expiry recomputed. -/
def refreshBranch (st : ApiState) (env : ApiEnv) :
    Except String Unit × ApiState :=
  if env.refreshStatus ≠ 200 then (.error "Token refresh failed", st)
  else
    match env.refreshAccess with
    | none => (.error "No access_token in response", st)
    | some a =>
      (.ok (),
        { st with
            access_token := some a
            refresh_token :=
              match env.refreshRefresh with
              | some r => some r
              | none => st.refresh_token
            token_expires := some (env.now + env.refreshExpiresIn.getD 3600) })

/-- `_ensure_token` (lines 128-170): skip when a login is already in
progress; full login when either token is missing; return when the
token is still comfortably valid; otherwise refresh. -/
def ensure_token (st : ApiState) (env : ApiEnv) :
    Except String Unit × ApiState :=
  if st.login_in_progress then (.ok (), st)
  else if !truthyS st.access_token || !truthyS st.refresh_token then
    ensureLoginBranch st env
  else if tokenStillValid st env.now then (.ok (), st)
  else refreshBranch st env

/-! ## Device listing (`api.py`, `get_devices` and helpers) -/

/-- How a network call inside the listing cycle fails:
`FenixTFTApiError` (raised by the client on bad statuses and caught
selectively by `get_devices`) versus any other exception
(`aiohttp.ClientError`, timeouts), which nothing in `get_devices`
catches. -/
inductive FetchErr where
  | apiError
  | otherError
deriving DecidableEq, Repr

/-- One temperature entry of a device-property document
(`{"value": ..., "divFactor": ...}`). -/
structure TempEntry where
  value : Option Rat
  divFactor : Option Rat
deriving DecidableEq, Repr

/-- `decode_temp_from_entry` (lines 48-57): value divided by
`divFactor` (default 1) is Fahrenheit; convert to Celsius. -/
def decode_temp_from_entry : Option TempEntry → Option Rat
  | none => none
  | some e =>
    match e.value with
    | none => none
    | some v => some ((v / e.divFactor.getD 1 - 32) * 5 / 9)

/-- The fields of a device-property document that `get_devices` probes
(`props.get("..", {}).get("value")`); an absent field and a field with
an absent value both become `none`. -/
structure Props where
  rn : Option String
  sv : Option String
  ty : Option Int
  ma : Option TempEntry
  at_ : Option TempEntry
  bo : Option TempEntry
  hs : Option Int
  cm : Option Int
  h1 : Option String
  h2 : Option String
  h3 : Option (List Int)
deriving DecidableEq, Repr

/-- A device element of a room (`dev.get("Id_deviceId")`). -/
structure RawDevice where
  devId : Option String
deriving DecidableEq, Repr

/-- A room element of an installation (`room.get("Zn")`,
`room.get("devices", [])`). -/
structure Room where
  zn : Option String
  devices : List RawDevice
deriving DecidableEq, Repr

/-- An installation element of the listing (`inst.get("Il")`,
`inst.get("id")`, `inst.get("rooms", [])`). -/
structure Installation where
  il : Option String
  instId : Option String
  rooms : List Room
deriving DecidableEq, Repr

/-- The `device_data` dict `get_devices` builds per device
(lines 427-443). -/
structure DeviceRecord where
  id : Option String
  name : String
  software : Option String
  devType : Option Int
  installation : String
  installation_id : Option String
  room_id : Option String
  target_temp : Option Rat
  current_temp : Option Rat
  floor_temp : Option Rat
  hvac_action : Option Int
  preset_mode : Option Int
  holiday_start : Option String
  holiday_end : Option String
  holiday_mode : Int
deriving DecidableEq, Repr

/-- Environment of one listing cycle: the outcome of the installation
inventory step (`get_installations`, which internally runs
`_ensure_token`/`get_userinfo`; any of those raising is this step
failing), of each per-device `get_device_properties` call, and of each
`trigger_device_updates` call. -/
structure DevEnv where
  installations : Except FetchErr (List Installation)
  props : Option String → Except FetchErr Props
  trigger : String → Except FetchErr Unit

/-- `device_data` construction (lines 421-443). -/
def buildDevice (inst_name : String) (inst_id room_id dev_id : Option String)
    (p : Props) : DeviceRecord :=
  { id := dev_id
    name := p.rn.getD "Unnamed Device"
    software := p.sv
    devType := p.ty
    installation := inst_name
    installation_id := inst_id
    room_id := room_id
    target_temp := decode_temp_from_entry p.ma
    current_temp := decode_temp_from_entry p.at_
    floor_temp := decode_temp_from_entry p.bo
    hvac_action := p.hs
    preset_mode := p.cm
    holiday_start := p.h1
    holiday_end := p.h2
    holiday_mode :=
      match p.h3 with
      | some (x :: _) => x
      | _ => 0 }

/-- Inner device loop of `get_devices` (lines 417-449): a
`FenixTFTApiError` from the property fetch skips that one device
(`continue`); any other exception propagates. -/
def processDevices (env : DevEnv) (inst_name : String)
    (inst_id room_id : Option String) :
    List RawDevice → Except FetchErr (List DeviceRecord)
  | [] => .ok []
  | d :: rest =>
    match env.props d.devId with
    | .ok p =>
      match processDevices env inst_name inst_id room_id rest with
      | .ok r => .ok (buildDevice inst_name inst_id room_id d.devId p :: r)
      | .error e => .error e
    | .error .apiError => processDevices env inst_name inst_id room_id rest
    | .error .otherError => .error .otherError

/-- Room loop of `get_devices` (lines 415-449). -/
def processRooms (env : DevEnv) (inst_name : String) (inst_id : Option String) :
    List Room → Except FetchErr (List DeviceRecord)
  | [] => .ok []
  | r :: rest =>
    match processDevices env inst_name inst_id r.zn r.devices with
    | .error e => .error e
    | .ok a =>
      match processRooms env inst_name inst_id rest with
      | .error e => .error e
      | .ok b => .ok (a ++ b)

/-- Installation loop of `get_devices` (lines 411-449);
`inst.get("Il", "Fenix TFT")`. -/
def processInstallations (env : DevEnv) :
    List Installation → Except FetchErr (List DeviceRecord)
  | [] => .ok []
  | i :: rest =>
    match processRooms env (i.il.getD "Fenix TFT") i.instId i.rooms with
    | .error e => .error e
    | .ok a =>
      match processInstallations env rest with
      | .error e => .error e
      | .ok b => .ok (a ++ b)

/-- The set of truthy installation ids of `update_all_devices`
(lines 510-514), as a deduplicated list. -/
def uniqueInstIds (devices : List DeviceRecord) : List String :=
  (devices.filterMap (fun d =>
    match d.installation_id with
    | some s => if s.data.isEmpty then none else some s
    | none => none)).dedup

/-- `update_all_devices` (lines 506-516): one
`trigger_device_updates` per unique installation id; a failure
propagates (nothing catches it in `get_devices`). -/
def triggerAll (env : DevEnv) : List String → Except FetchErr Unit
  | [] => .ok ()
  | i :: rest =>
    match env.trigger i with
    | .error e => .error e
    | .ok _ => triggerAll env rest

/-- `get_devices` (lines 401-455): a `FenixTFTApiError` from the
installation listing is caught and turns into an *empty, successful*
result; other exceptions propagate.  Then the per-installation /
per-room / per-device expansion runs, and finally
`update_all_devices`. -/
def get_devices (env : DevEnv) : Except FetchErr (List DeviceRecord) :=
  match env.installations with
  | .error .apiError => .ok []
  | .error .otherError => .error .otherError
  | .ok insts =>
    match processInstallations env insts with
    | .error e => .error e
    | .ok devices =>
      match triggerAll env (uniqueInstIds devices) with
      | .error e => .error e
      | .ok _ => .ok devices

/-! ## Coordinator (`coordinator.py`, `FenixTFTCoordinator`) -/

/-- `OPTIMISTIC_UPDATE_DURATION` (`coordinator.py` line 24). -/
def OPTIMISTIC_UPDATE_DURATION : Int := 10

/-- `HVAC_ACTION_HEATING` / `HVAC_ACTION_IDLE` / `HVAC_ACTION_OFF` and
`PRESET_MODE_OFF` (`const.py` lines 38, 66-68). -/
def HVAC_ACTION_IDLE : Int := 0

def HVAC_ACTION_HEATING : Int := 1

def HVAC_ACTION_OFF : Int := 2

def PRESET_MODE_OFF : Int := 0

/-- `_predict_hvac_action` (lines 27-39). -/
def predict_hvac_action (preset_mode : Int) : Int :=
  if preset_mode = 0 then 2 else 0

/-- One value of `_optimistic_updates`: the tuple
`(preset_mode, hvac_action, timestamp)`. -/
structure OptEntry where
  presetMode : Int
  hvacAction : Int
  timestamp : Int
deriving DecidableEq, Repr

/-- The polling constants `coordinator.py` imports from `const.py`.
Their numeric values are absent from the source tree (the shipped
`const.py` does not define them), so they are left abstract; every
claim about the polling rules is proved for all values. -/
structure PollConsts where
  scanInterval : Int
  fastPollSeconds : Int
  slowPollSeconds : Int
  startupFastPeriod : Int
  errorBackoffSeconds : Int

/-- Mutable coordinator state: the published snapshot (`self.data`,
`None` before any successful refresh), `_optimistic_updates` (a dict,
modelled as a key-unique association list in insertion order),
`_startup_time`, `_error_backoff_until` and `update_interval` in whole
seconds. -/
structure CoordState where
  data : Option (List DeviceRecord)
  optimistic : List (String × OptEntry)
  startupTime : Int
  errorBackoffUntil : Option Int
  updateInterval : Option Int

/-- The inner `for device in fresh_data: ... break` of the optimistic
merge (lines 91-102) and of `update_device_preset_mode`
(lines 124-134): overwrite `preset_mode` / `hvac_action` of the *first*
device whose `id` matches, leaving every other record untouched. -/
def applyEntry (ds : List DeviceRecord) (device_id : String)
    (pm hv : Int) : List DeviceRecord :=
  match ds with
  | [] => []
  | d :: rest =>
    if d.id = some device_id then
      { d with preset_mode := some pm, hvac_action := some hv } :: rest
    else d :: applyEntry rest device_id pm hv

/-- The entry loop of `_async_update_data` (lines 85-102): walk the
optimistic map in order, skipping entries older than the TTL and
overlaying live ones onto the fresh snapshot. -/
def applyLive (updates : List (String × OptEntry)) (now : Int)
    (ds : List DeviceRecord) : List DeviceRecord :=
  match updates with
  | [] => ds
  | (device_id, e) :: rest =>
    if now - e.timestamp > OPTIMISTIC_UPDATE_DURATION then
      applyLive rest now ds
    else
      applyLive rest now (applyEntry ds device_id e.presetMode e.hvacAction)

/-- The expiry sweep of `_async_update_data` (lines 88-90 and 104-105):
remove every entry older than the TTL. -/
def pruneExpired (updates : List (String × OptEntry)) (now : Int) :
    List (String × OptEntry) :=
  updates.filter (fun p => !(decide (now - p.2.timestamp > OPTIMISTIC_UPDATE_DURATION)))

/-- Python dict assignment `self._optimistic_updates[device_id] = v`:
replace in place, or append a new key. -/
def dictInsert (updates : List (String × OptEntry)) (k : String) (v : OptEntry) :
    List (String × OptEntry) :=
  match updates with
  | [] => [(k, v)]
  | (k', v') :: rest =>
    if k' = k then (k, v) :: rest else (k', v') :: dictInsert rest k v

/-- The backoff test of `_adapt_polling_interval` (line 152):
`self._error_backoff_until and now < self._error_backoff_until`
(`0.0` is falsy). -/
def inBackoff (st : CoordState) (now : Int) : Bool :=
  match st.errorBackoffUntil with
  | none => false
  | some b => !(b == 0) && decide (now < b)

/-- `_adapt_polling_interval` (lines 139-176): keep the interval while
in backoff; otherwise fast during startup or when any device reports
active heating, else slow (`max(SCAN_INTERVAL, SLOW_POLL_SECONDS)`);
apply only when changed. -/
def adaptPollingInterval (c : PollConsts) (st : CoordState)
    (devices : List DeviceRecord) (now : Int) : CoordState :=
  if inBackoff st now then st
  else
    let inStartup := decide (now - st.startupTime < c.startupFastPeriod)
    let anyHeating := devices.any (fun d => d.hvac_action == some HVAC_ACTION_HEATING)
    let desired :=
      if inStartup || anyHeating then c.fastPollSeconds
      else max c.scanInterval c.slowPollSeconds
    if st.updateInterval == some desired then st
    else { st with updateInterval := some desired }

/-- `_async_update_data` (lines 70-109) together with the
`DataUpdateCoordinator` publication contract: on any exception from
`get_devices` the cycle raises `UpdateFailed`, enters the backoff
window and leaves the published snapshot untouched; on success the
optimistic overlay is applied and pruned, the interval adapted, and the
overlaid list becomes the published snapshot.  The two `loop.time()`
reads of one cycle are modelled as a single instant `now`. -/
def asyncUpdateData (c : PollConsts) (st : CoordState) (env : DevEnv)
    (now : Int) : Except Unit (List DeviceRecord) × CoordState :=
  match get_devices env with
  | .error _ =>
    (.error (),
      { st with errorBackoffUntil := some (now + c.errorBackoffSeconds),
                updateInterval := some c.errorBackoffSeconds })
  | .ok fresh =>
    let fresh' := applyLive st.optimistic now fresh
    let st1 := { st with optimistic := pruneExpired st.optimistic now }
    let st2 := adaptPollingInterval c st1 fresh' now
    (.ok fresh', { st2 with data := some fresh' })

/-- `update_device_preset_mode` (lines 111-134): a no-op while no
snapshot is published (`if not self.data`); otherwise record the
optimistic entry and mutate the first matching record of the published
snapshot in place.  Takes no environment: no network call occurs. -/
def update_device_preset_mode (st : CoordState) (device_id : String)
    (preset_mode : Int) (now : Int) : CoordState :=
  match st.data with
  | none => st
  | some ds =>
    if ds.isEmpty then st
    else
      let hv := predict_hvac_action preset_mode
      { st with
          optimistic := dictInsert st.optimistic device_id
            ⟨preset_mode, hv, now⟩
          data := some (applyEntry ds device_id preset_mode hv) }

/-! ## Spec-side characterizations used by the theorems -/

/-- Records for exactly those listed devices whose property fetch
succeeded, in listing order (the behavior `get_devices` actually
implements for per-device failures). -/
def successfulRecords (env : DevEnv) (insts : List Installation) :
    List DeviceRecord :=
  insts.flatMap (fun i =>
    i.rooms.flatMap (fun r =>
      r.devices.filterMap (fun d =>
        match env.props d.devId with
        | .ok p => some (buildDevice (i.il.getD "Fenix TFT") i.instId r.zn d.devId p)
        | .error _ => none)))

/-- Every device element of the listing, in order. -/
def listingDevices (insts : List Installation) : List RawDevice :=
  insts.flatMap (fun i => i.rooms.flatMap (fun r => r.devices))

/-- The first live (non-expired) optimistic entry whose key equals the
given device id, if any. -/
def findLive (updates : List (String × OptEntry)) (now : Int)
    (oid : Option String) : Option OptEntry :=
  match updates with
  | [] => none
  | (k, e) :: rest =>
    if now - e.timestamp > OPTIMISTIC_UPDATE_DURATION then findLive rest now oid
    else if oid = some k then some e
    else findLive rest now oid

/-! ## Helper lemmas -/

theorem map_eq_self_of_forall {α : Type} (l : List α) (f : α → α)
    (h : ∀ x ∈ l, f x = x) : l.map f = l := by
  induction l with
  | nil => rfl
  | cons a t ih =>
    simp only [List.map_cons, h a (by simp)]
    rw [ih (fun x hx => h x (by simp [hx]))]

theorem alphaAt_mem (i : Nat) : alphaAt i ∈ b64Alphabet := by
  by_cases h : i < b64Alphabet.length
  · have : alphaAt i = b64Alphabet[i] := List.getD_eq_getElem b64Alphabet 'A' h
    rw [this]
    exact List.getElem_mem h
  · have : alphaAt i = 'A' := List.getD_eq_default b64Alphabet 'A' (by omega)
    rw [this]
    decide

theorem length_b64Encode : ∀ bs : List Nat,
    (b64Encode bs).length = 4 * ((bs.length + 2) / 3)
  | [] => by simp [b64Encode]
  | [b1] => by simp [b64Encode]
  | [b1, b2] => by simp [b64Encode]
  | b1 :: b2 :: b3 :: rest => by
    have ih := length_b64Encode rest
    simp only [b64Encode, List.length_cons, ih]
    omega

theorem mem_b64Encode_of_dvd : ∀ bs : List Nat, 3 ∣ bs.length →
    ∀ c ∈ b64Encode bs, c ∈ b64Alphabet
  | [], _, c, hc => by simp [b64Encode] at hc
  | [b1], h, c, hc => by simp at h
  | [b1, b2], h, c, hc => by
    rw [show ([b1, b2] : List Nat).length = 2 from rfl] at h
    exact absurd h (by decide)
  | b1 :: b2 :: b3 :: rest, h, c, hc => by
    have hrest : 3 ∣ rest.length := by
      simp only [List.length_cons] at h
      omega
    simp only [b64Encode, List.mem_cons] at hc
    rcases hc with rfl | rfl | rfl | rfl | hc
    · exact alphaAt_mem _
    · exact alphaAt_mem _
    · exact alphaAt_mem _
    · exact alphaAt_mem _
    · exact mem_b64Encode_of_dvd rest hrest c hc

theorem rstripEq_of_no_pad (l : List Char) (h : ∀ c ∈ l, c ≠ '=') :
    rstripEq l = l := by
  unfold rstripEq
  have : l.reverse.dropWhile (fun c => c = '=') = l.reverse := by
    cases hr : l.reverse with
    | nil => simp
    | cons x xs =>
      have hx : x ∈ l := by
        rw [← List.mem_reverse, hr]
        simp
      rw [List.dropWhile_cons]
      simp [h x hx]
  rw [this, List.reverse_reverse]

theorem alphabet_urlsafe : ∀ c ∈ b64Alphabet, isUrlSafeChar c = true := by
  decide

/-- C6: every PKCE pair generated from the 96 random bytes of
`secrets.token_urlsafe(96)` has a 128-character URL-safe verifier, and
its challenge is exactly the base64url encoding, padding stripped, of
the SHA-256 digest of the ASCII bytes of the verifier.  The pair is a
local value of one `login` attempt (`_start_authorization` generates it
and only that attempt's `_exchange_tokens` receives the verifier), so
each pair is fresh per attempt and used at most once by construction of
`login`. -/
theorem c6_pkce_pair (sha256 : List Nat → List Nat) (rb : List Nat)
    (h : rb.length = 96) :
    (generate_pkce_pair sha256 rb).1.length = 128 ∧
    (∀ c ∈ (generate_pkce_pair sha256 rb).1.data, isUrlSafeChar c = true) ∧
    (generate_pkce_pair sha256 rb).2.data =
      base64url_nopad
        (sha256 ((generate_pkce_pair sha256 rb).1.data.map Char.toNat)) := by
  have hlen : (b64Encode rb).length = 128 := by
    rw [length_b64Encode, h]
  have hdvd : (3 : Nat) ∣ rb.length := by
    rw [h]
    exact ⟨32, rfl⟩
  have hmem : ∀ c ∈ b64Encode rb, c ∈ b64Alphabet :=
    mem_b64Encode_of_dvd rb hdvd
  have hnopad : ∀ c ∈ b64Encode rb, c ≠ '=' := by
    intro c hc he
    have hm := hmem c hc
    rw [he] at hm
    exact absurd hm (by decide)
  have hstrip : rstripEq (b64Encode rb) = b64Encode rb :=
    rstripEq_of_no_pad _ hnopad
  have hver : (generate_pkce_pair sha256 rb).1.data = b64Encode rb := by
    show (rstripEq (b64Encode rb)).take 128 = b64Encode rb
    rw [hstrip, ← hlen, List.take_length]
  refine ⟨?_, ?_, ?_⟩
  · have hl : (generate_pkce_pair sha256 rb).1.length =
        (generate_pkce_pair sha256 rb).1.data.length := rfl
    rw [hl, hver, hlen]
  · intro c hc
    rw [hver] at hc
    exact alphabet_urlsafe c (hmem c hc)
  · rfl

/-- Witness for `c6_pkce_pair` at 96 zero bytes and a stub digest. -/
theorem c6_pkce_pair_witness :
    (List.replicate 96 (0 : Nat)).length = 96 ∧
    ((generate_pkce_pair (fun _ => List.replicate 32 0)
        (List.replicate 96 0)).1.length = 128 ∧
     (∀ c ∈ (generate_pkce_pair (fun _ => List.replicate 32 0)
        (List.replicate 96 0)).1.data, isUrlSafeChar c = true) ∧
     (generate_pkce_pair (fun _ => List.replicate 32 0)
        (List.replicate 96 0)).2.data =
       base64url_nopad ((fun _ => List.replicate 32 0)
         ((generate_pkce_pair (fun _ => List.replicate 32 0)
            (List.replicate 96 0)).1.data.map Char.toNat))) :=
  ⟨by decide,
   c6_pkce_pair (fun _ => List.replicate 32 0) (List.replicate 96 0) (by decide)⟩

/-! ## Concrete auth scenarios -/

/-- A fresh session: the `__init__` token state. -/
def st0 : ApiState := ⟨none, none, none, none, false⟩

/-- A fully authenticated session with both tokens and an expiry. -/
def stTok : ApiState := ⟨some "a", some "r", some 1000, none, false⟩

/-- A session whose busy flag is set by an in-flight login. -/
def stBusy : ApiState := ⟨none, none, none, none, true⟩

/-- An environment in which every step of the login and refresh flows
succeeds. -/
def baseEnv : ApiEnv where
  sha256 := fun _ => []
  randomBytes := [0, 0, 0]
  stateRand := "S1"
  nonceRand := "N1"
  now := 0
  authStatus := 302
  authLocation := some "/login"
  loginPageStatus := 200
  loginPageCsrf := some "csrf"
  loginPageReturnUrl := some "/ret"
  formStatus := 302
  formLocation := some "/cb#code=c1&id_token=i1&state=S1"
  callbackFollowLocation := none
  tokenStatus := 200
  tokenAccess := some "acc"
  tokenRefresh := some "ref"
  tokenExpiresIn := none
  refreshStatus := 200
  refreshAccess := some "racc"
  refreshRefresh := some "rref"
  refreshExpiresIn := none

/-- Refresh-token exchange answers HTTP 401. -/
def envC3 : ApiEnv := { baseEnv with now := 1000, refreshStatus := 401 }

/-- Token exchange replies 200 but without a `refresh_token` field. -/
def envC4 : ApiEnv := { baseEnv with tokenRefresh := none }

/-- The callback fragment carries a `state` different from the
generated one. -/
def envC7 : ApiEnv :=
  { baseEnv with formLocation := some "/cb#code=c1&id_token=i1&state=WRONG" }

/-- The callback URL `login` hands to `_handle_callback` under
`envC7`. -/
def cbC7 : String :=
  "https://vs2-fe-identity-prod.azurewebsites.net/cb#code=c1&id_token=i1&state=WRONG"

/-! ## C3 — refresh failure does NOT clear the token state -/

/-- C3 counterexample: with both tokens present and the token near
expiry (`now = expires_at`), a 401 from the refresh endpoint makes
`_ensure_token` raise, but the stored token state is *unchanged* — the
access and refresh tokens are still present, contradicting the claimed
clearing. -/
theorem c3_counterexample :
    (ensure_token stTok envC3).1.isOk = false ∧
    (ensure_token stTok envC3).2 = stTok ∧
    stTok.access_token = some "a" ∧
    stTok.refresh_token = some "r" := by
  decide

/-- C3 amended: when both tokens are present, the token is no longer
comfortably valid, and the refresh exchange returns a non-200 status or
a body without `access_token`, `_ensure_token` fails *and leaves the
token state unchanged*; any later call on this state (while the token
is still stale) takes the refresh branch again, not a full login. -/
theorem c3_refresh_failure_keeps_state (st : ApiState) (env : ApiEnv)
    (hlip : st.login_in_progress = false)
    (hacc : truthyS st.access_token = true)
    (href : truthyS st.refresh_token = true)
    (hexp : tokenStillValid st env.now = false)
    (hfail : env.refreshStatus ≠ 200 ∨ env.refreshAccess = none) :
    (ensure_token st env).1.isOk = false ∧
    (ensure_token st env).2 = st ∧
    (∀ env2 : ApiEnv, tokenStillValid st env2.now = false →
      ensure_token st env2 = refreshBranch st env2) := by
  have hbranch : ∀ env2 : ApiEnv, tokenStillValid st env2.now = false →
      ensure_token st env2 = refreshBranch st env2 := by
    intro env2 h2
    unfold ensure_token
    rw [hlip, hacc, href, h2]
    simp
  have heq := hbranch env hexp
  rw [heq]
  refine ⟨?_, ?_, hbranch⟩
  · unfold refreshBranch
    rcases hfail with hs | ha
    · simp [hs, Except.isOk, Except.toBool]
    · by_cases hs : env.refreshStatus = 200
      · simp [hs, ha, Except.isOk, Except.toBool]
      · simp [hs, Except.isOk, Except.toBool]
  · unfold refreshBranch
    rcases hfail with hs | ha
    · simp [hs]
    · by_cases hs : env.refreshStatus = 200
      · simp [hs, ha]
      · simp [hs]

/-- Witness for `c3_refresh_failure_keeps_state` on the concrete 401
scenario. -/
theorem c3_refresh_failure_keeps_state_witness :
    (stTok.login_in_progress = false ∧
     truthyS stTok.access_token = true ∧
     truthyS stTok.refresh_token = true ∧
     tokenStillValid stTok envC3.now = false ∧
     (envC3.refreshStatus ≠ 200 ∨ envC3.refreshAccess = none)) ∧
    ((ensure_token stTok envC3).1.isOk = false ∧
     (ensure_token stTok envC3).2 = stTok ∧
     (∀ env2 : ApiEnv, tokenStillValid stTok env2.now = false →
       ensure_token stTok env2 = refreshBranch stTok env2)) :=
  ⟨⟨rfl, rfl, rfl, rfl, Or.inl (by decide)⟩,
   c3_refresh_failure_keeps_state stTok envC3 rfl rfl rfl rfl
     (Or.inl (by decide))⟩

/-! ## C4 — failing login can retain partial token state -/

/-- C4 counterexample: a full login attempt in which every step
succeeds except that the token-exchange response carries an
`access_token` but no `refresh_token`.  `login` reports failure, yet
the stored state afterwards holds an access token *without* a refresh
token — partial state is retained and the claimed invariant
(access present → refresh present) is violated. -/
theorem c4_counterexample :
    (login st0 envC4).1 = false ∧
    (login st0 envC4).2.access_token = some "acc" ∧
    (login st0 envC4).2.refresh_token = none := by
  decide

/-- C4 amended: a failing token exchange (status 200, either token
missing from the body) raises but first overwrites both stored tokens
with whatever the response contained, so partial state survives the
failed attempt; however, any state missing either token makes the next
`_ensure_token` call (with the busy flag clear) perform a full login
rather than a refresh, so the partial state is never refreshed. -/
theorem c4_exchange_partial_state (st : ApiState) (env : ApiEnv)
    (code ver : String) (h200 : env.tokenStatus = 200)
    (hmiss : truthyS env.tokenAccess = false ∨ truthyS env.tokenRefresh = false) :
    (exchangeTokens st env code ver).2.isOk = false ∧
    (exchangeTokens st env code ver).1.access_token = env.tokenAccess ∧
    (exchangeTokens st env code ver).1.refresh_token = env.tokenRefresh ∧
    (∀ st2 : ApiState, ∀ env2 : ApiEnv, st2.login_in_progress = false →
      (truthyS st2.access_token = false ∨ truthyS st2.refresh_token = false) →
      ensure_token st2 env2 = ensureLoginBranch st2 env2) := by
  have hcond : (truthyS env.tokenAccess && truthyS env.tokenRefresh) = false := by
    rcases hmiss with h | h <;> simp [h]
  unfold exchangeTokens
  simp only [h200]
  refine ⟨?_, ?_, ?_, ?_⟩
  · simp [hcond, Except.isOk, Except.toBool]
  · simp [hcond]
  · simp [hcond]
  · intro st2 env2 hlip2 hmiss2
    unfold ensure_token
    rw [hlip2]
    have hc2 : (!truthyS st2.access_token || !truthyS st2.refresh_token) = true := by
      rcases hmiss2 with h | h <;> simp [h]
    simp [hc2]

/-- Witness for `c4_exchange_partial_state` on the concrete
missing-refresh-token exchange. -/
theorem c4_exchange_partial_state_witness :
    (envC4.tokenStatus = 200 ∧
     (truthyS envC4.tokenAccess = false ∨ truthyS envC4.tokenRefresh = false)) ∧
    ((exchangeTokens st0 envC4 "c1" "AAAA").2.isOk = false ∧
     (exchangeTokens st0 envC4 "c1" "AAAA").1.access_token = envC4.tokenAccess ∧
     (exchangeTokens st0 envC4 "c1" "AAAA").1.refresh_token = envC4.tokenRefresh ∧
     (∀ st2 : ApiState, ∀ env2 : ApiEnv, st2.login_in_progress = false →
       (truthyS st2.access_token = false ∨ truthyS st2.refresh_token = false) →
       ensure_token st2 env2 = ensureLoginBranch st2 env2)) :=
  ⟨⟨rfl, Or.inr (by decide)⟩,
   c4_exchange_partial_state st0 envC4 "c1" "AAAA" rfl (Or.inr (by decide))⟩

/-! ## C5 — a caller that races an in-flight login does not wait -/

/-- C5 counterexample: with a login already in progress and no tokens
stored, a concurrent `_ensure_token` call returns *successfully and
immediately*, without waiting for the in-flight login, without a token,
and without observing the login's result — the claimed
"every caller waits and observes the same token or failure" is false. -/
theorem c5_counterexample :
    ensure_token stBusy baseEnv = (.ok (), stBusy) ∧
    stBusy.access_token = none ∧
    stBusy.refresh_token = none :=
  ⟨rfl, rfl, rfl⟩

/-- C5 amended: while the busy flag is set, `_ensure_token` is a no-op
that reports success: no second login is started (the state is
untouched), but the caller does not wait for the in-flight login and
returns without a valid token. -/
theorem c5_busy_flag_skips (st : ApiState) (env : ApiEnv)
    (h : st.login_in_progress = true) :
    ensure_token st env = (.ok (), st) := by
  unfold ensure_token
  rw [h]
  simp

/-- Witness for `c5_busy_flag_skips` on the busy session. -/
theorem c5_busy_flag_skips_witness :
    stBusy.login_in_progress = true ∧
    ensure_token stBusy baseEnv = (.ok (), stBusy) :=
  ⟨rfl, c5_busy_flag_skips stBusy baseEnv rfl⟩

/-! ## C7 — state mismatch aborts login before the token exchange -/

/-- C7: whenever control reaches `_handle_callback` and the `state`
extracted from the callback URL fragment differs from the state
generated at authorization time, `login` returns failure with the token
state completely unchanged — in particular `_exchange_tokens` is never
reached (it is the only code that writes tokens, and the state is
returned verbatim). -/
theorem c7_state_mismatch (st : ApiState) (env : ApiEnv)
    (cb cv stt : String) (hsteps : loginSteps env = some (cb, cv, stt))
    (hmism : fragLookup (fragmentOf (resolveCallback env cb)) "state" ≠ some stt) :
    login st env = (false, st) := by
  have hcb : handleCallback env cb stt = (none, none) := by
    unfold handleCallback
    have hb : (fragLookup (fragmentOf (resolveCallback env cb)) "state"
        == some stt) = false := beq_eq_false_iff_ne.mpr hmism
    simp [hb]
  unfold login
  rw [hsteps]
  simp [hcb]

/-- Witness for `c7_state_mismatch`: the concrete flow whose callback
fragment answers `state=WRONG` against generated state `S1`. -/
theorem c7_state_mismatch_witness :
    (loginSteps envC7 = some (cbC7, "AAAA", "S1") ∧
     fragLookup (fragmentOf (resolveCallback envC7 cbC7)) "state" ≠ some "S1") ∧
    login st0 envC7 = (false, st0) :=
  ⟨⟨by decide, by decide⟩,
   c7_state_mismatch st0 envC7 cbC7 "AAAA" "S1" (by decide) (by decide)⟩


/-! ## Coordinator and listing helper lemmas -/

theorem applyLive_nil (U : List (String × OptEntry)) (now : Int) :
    applyLive U now [] = [] := by
  induction U with
  | nil => rfl
  | cons p rest ih =>
    obtain ⟨k, e⟩ := p
    unfold applyLive
    split
    · exact ih
    · simp only [applyEntry]
      exact ih

theorem triggerAll_ok (env : DevEnv) (h : ∀ i, env.trigger i = .ok ()) :
    ∀ l : List String, triggerAll env l = .ok ()
  | [] => rfl
  | i :: rest => by
    unfold triggerAll
    rw [h i]
    exact triggerAll_ok env h rest

theorem processDevices_eq (env : DevEnv) (inst_name : String)
    (inst_id room_id : Option String)
    (h : ∀ oid, env.props oid ≠ .error .otherError) :
    ∀ l : List RawDevice,
      processDevices env inst_name inst_id room_id l =
        .ok (l.filterMap (fun d =>
          match env.props d.devId with
          | .ok p => some (buildDevice inst_name inst_id room_id d.devId p)
          | .error _ => none))
  | [] => rfl
  | d :: rest => by
    have ih := processDevices_eq env inst_name inst_id room_id h rest
    unfold processDevices
    rw [List.filterMap_cons]
    cases hp : env.props d.devId with
    | ok p => rw [ih]
    | error e =>
      cases e with
      | apiError => rw [ih]
      | otherError => exact absurd hp (h d.devId)

theorem processRooms_eq (env : DevEnv) (inst_name : String)
    (inst_id : Option String)
    (h : ∀ oid, env.props oid ≠ .error .otherError) :
    ∀ l : List Room,
      processRooms env inst_name inst_id l =
        .ok (l.flatMap (fun r =>
          r.devices.filterMap (fun d =>
            match env.props d.devId with
            | .ok p => some (buildDevice inst_name inst_id r.zn d.devId p)
            | .error _ => none)))
  | [] => rfl
  | r :: rest => by
    have ih := processRooms_eq env inst_name inst_id h rest
    unfold processRooms
    rw [processDevices_eq env inst_name inst_id r.zn h r.devices, ih,
      List.flatMap_cons]

theorem processInstallations_eq (env : DevEnv)
    (h : ∀ oid, env.props oid ≠ .error .otherError) :
    ∀ l : List Installation,
      processInstallations env l = .ok (successfulRecords env l)
  | [] => rfl
  | i :: rest => by
    have ih := processInstallations_eq env h rest
    unfold processInstallations
    rw [processRooms_eq env (i.il.getD "Fenix TFT") i.instId h i.rooms, ih]
    unfold successfulRecords
    rw [List.flatMap_cons]

theorem length_filterMap_eq {α β : Type} (f : α → Option β) :
    ∀ l : List α, (l.filterMap f).length = l.countP (fun a => (f a).isSome)
  | [] => rfl
  | a :: l => by
    rw [List.filterMap_cons, List.countP_cons]
    cases hf : f a with
    | none => simp [length_filterMap_eq f l]
    | some b => simp [length_filterMap_eq f l]

theorem countP_add_countP_not {α : Type} (p : α → Bool) :
    ∀ l : List α, l.countP p + l.countP (fun a => !p a) = l.length
  | [] => rfl
  | a :: l => by
    rw [List.countP_cons, List.countP_cons]
    have ih := countP_add_countP_not p l
    cases hp : p a <;> simp [hp] <;> omega

theorem successfulRecords_length (env : DevEnv) :
    ∀ insts : List Installation,
      (successfulRecords env insts).length =
        (listingDevices insts).countP (fun d => (env.props d.devId).isOk)
  | [] => rfl
  | i :: rest => by
    have ih := successfulRecords_length env rest
    unfold successfulRecords listingDevices
    rw [List.flatMap_cons, List.flatMap_cons, List.length_append,
      List.countP_append]
    have hinner : ∀ rooms : List Room,
        (rooms.flatMap (fun r =>
          r.devices.filterMap (fun d =>
            match env.props d.devId with
            | .ok p => some (buildDevice (i.il.getD "Fenix TFT") i.instId r.zn d.devId p)
            | .error _ => none))).length =
        (rooms.flatMap (fun r => r.devices)).countP
          (fun d => (env.props d.devId).isOk) := by
      intro rooms
      induction rooms with
      | nil => rfl
      | cons r rrest ihr =>
        rw [List.flatMap_cons, List.flatMap_cons, List.length_append,
          List.countP_append, ihr, length_filterMap_eq]
        congr 1
        apply List.countP_congr
        intro d _
        cases hp : env.props d.devId <;>
          simp [hp, Except.isOk, Except.toBool]
    rw [hinner i.rooms]
    unfold successfulRecords listingDevices at ih
    rw [ih]

/-! ## C1 — listing failure: FenixTFTApiError is swallowed, not raised -/

/-- Empty property document. -/
def propsNone : Props :=
  ⟨none, none, none, none, none, none, none, none, none, none, none⟩

/-- A previously published device record. -/
def devC1 : DeviceRecord :=
  buildDevice "Home" (some "inst1") (some "room1") (some "dev1") propsNone

/-- Sample polling constants for concrete runs (their real values are
absent from the source tree). -/
def cC : PollConsts := ⟨300, 30, 300, 120, 300⟩

/-- Coordinator state with one published device. -/
def stC1 : CoordState :=
  { data := some [devC1], optimistic := [], startupTime := 0,
    errorBackoffUntil := none, updateInterval := some 30 }

/-- Environment whose installation listing fails with
`FenixTFTApiError`. -/
def envC1 : DevEnv :=
  ⟨.error .apiError, fun _ => .error .apiError, fun _ => .ok ()⟩

/-- C1 counterexample: when the installation inventory fetch fails with
`FenixTFTApiError`, the refresh cycle does *not* surface `UpdateFailed`
— it succeeds with an empty device list, and the previously published
snapshot (one device) is replaced by an empty one. -/
theorem c1_counterexample :
    (asyncUpdateData cC stC1 envC1 5).1 = Except.ok [] ∧
    (asyncUpdateData cC stC1 envC1 5).2.data = some [] ∧
    stC1.data ≠ some [] := by
  refine ⟨rfl, rfl, by decide⟩

/-- C1 amended: only a listing failure that is *not* a
`FenixTFTApiError` (transport errors, timeouts) surfaces as
`UpdateFailed` and leaves the published snapshot unchanged; a listing
failure that is a `FenixTFTApiError` is caught inside `get_devices`,
the cycle reports success, and an *empty* snapshot is published in
place of the previous one. -/
theorem c1_listing_failure (c : PollConsts) (st : CoordState) (env : DevEnv)
    (now : Int) (e : FetchErr) (h : env.installations = .error e) :
    (asyncUpdateData c st env now).1 =
      (if e = .apiError then Except.ok [] else Except.error ()) ∧
    (asyncUpdateData c st env now).2.data =
      (if e = .apiError then some [] else st.data) := by
  cases e with
  | apiError =>
    have hg : get_devices env = .ok [] := by
      unfold get_devices
      rw [h]
    unfold asyncUpdateData
    rw [hg]
    simp [applyLive_nil]
  | otherError =>
    have hg : get_devices env = .error .otherError := by
      unfold get_devices
      rw [h]
    unfold asyncUpdateData
    rw [hg]
    simp

/-- Witness for `c1_listing_failure` at the concrete `FenixTFTApiError`
listing failure. -/
theorem c1_listing_failure_witness :
    envC1.installations = .error .apiError ∧
    ((asyncUpdateData cC stC1 envC1 5).1 =
       (if FetchErr.apiError = .apiError then Except.ok [] else Except.error ()) ∧
     (asyncUpdateData cC stC1 envC1 5).2.data =
       (if FetchErr.apiError = .apiError then some [] else stC1.data)) :=
  ⟨rfl, c1_listing_failure cC stC1 envC1 5 .apiError rfl⟩

/-! ## C2 — a failing per-device fetch omits that device's record -/

/-- Property document of the healthy device. -/
def propsDev1 : Props :=
  { rn := some "Living", sv := some "v1", ty := some 7,
    ma := some ⟨some 700, some 10⟩, at_ := some ⟨some 680, some 10⟩,
    bo := none, hs := some 0, cm := some 2, h1 := none, h2 := none,
    h3 := some [0, 0, 0] }

/-- One installation, one room, two devices. -/
def instC2 : Installation :=
  ⟨some "Home", some "inst1", [⟨some "room1", [⟨some "dev1"⟩, ⟨some "dev2"⟩]⟩]⟩

/-- Listing succeeds; the property fetch of `dev2` fails with
`FenixTFTApiError`, `dev1`'s succeeds; triggers succeed. -/
def envC2 : DevEnv :=
  ⟨.ok [instC2],
   fun oid => if oid = some "dev1" then .ok propsDev1 else .error .apiError,
   fun _ => .ok ()⟩

/-- C2 counterexample: of 2 listed devices exactly one property fetch
fails, and the cycle returns only 1 record (the one whose fetch
succeeded) — the failing device's record is *absent*, not
present-with-absent-fields as claimed. -/
theorem c2_counterexample :
    get_devices envC2 =
      .ok [buildDevice "Home" (some "inst1") (some "room1") (some "dev1") propsDev1] ∧
    (listingDevices [instC2]).length = 2 ∧
    [buildDevice "Home" (some "inst1") (some "room1") (some "dev1") propsDev1].length = 1 ∧
    (buildDevice "Home" (some "inst1") (some "room1") (some "dev1") propsDev1).id =
      some "dev1" := by
  refine ⟨rfl, rfl, rfl, rfl⟩

/-- C2 amended: when the listing succeeds, every per-device failure is a
`FenixTFTApiError` (a non-API exception would abort the cycle) and the
post-listing triggers succeed, the cycle does not raise and returns
records for exactly the devices whose property fetch succeeded, in
listing order and fully populated from their fetched properties; each
failing device's record is omitted, so with f failures among n listed
devices the cycle returns n − f records (n − 1 for exactly one
failure). -/
theorem c2_per_device_failures (env : DevEnv) (insts : List Installation)
    (h1 : env.installations = .ok insts)
    (h2 : ∀ oid, env.props oid ≠ .error .otherError)
    (h3 : ∀ i, env.trigger i = .ok ()) :
    get_devices env = .ok (successfulRecords env insts) ∧
    (successfulRecords env insts).length +
        (listingDevices insts).countP (fun d => !(env.props d.devId).isOk) =
      (listingDevices insts).length := by
  constructor
  · have hpi := processInstallations_eq env h2 insts
    have hta := triggerAll_ok env h3 (uniqueInstIds (successfulRecords env insts))
    simp only [get_devices, h1, hpi, hta]
  · rw [successfulRecords_length env insts]
    exact countP_add_countP_not (fun d => (env.props d.devId).isOk)
      (listingDevices insts)

/-- Witness for `c2_per_device_failures` on the concrete two-device
listing with one API-error failure. -/
theorem c2_per_device_failures_witness :
    (envC2.installations = .ok [instC2] ∧
     (∀ oid, envC2.props oid ≠ .error .otherError) ∧
     (∀ i, envC2.trigger i = .ok ())) ∧
    (get_devices envC2 = .ok (successfulRecords envC2 [instC2]) ∧
     (successfulRecords envC2 [instC2]).length +
         (listingDevices [instC2]).countP
           (fun d => !(envC2.props d.devId).isOk) =
       (listingDevices [instC2]).length) :=
  ⟨⟨rfl,
    fun oid => by
      show (if oid = some "dev1" then Except.ok propsDev1
        else Except.error FetchErr.apiError) ≠ Except.error FetchErr.otherError
      split <;> simp,
    fun _ => rfl⟩,
   c2_per_device_failures envC2 [instC2] rfl
     (fun oid => by
       show (if oid = some "dev1" then Except.ok propsDev1
         else Except.error FetchErr.apiError) ≠ Except.error FetchErr.otherError
       split <;> simp)
     (fun _ => rfl)⟩



/-! ## Overlay lemmas (first-match overwrite via a map characterization) -/

theorem applyEntry_cons (d : DeviceRecord) (rest : List DeviceRecord)
    (device_id : String) (pm hv : Int) :
    applyEntry (d :: rest) device_id pm hv =
      if d.id = some device_id then
        { d with preset_mode := some pm, hvac_action := some hv } :: rest
      else d :: applyEntry rest device_id pm hv := rfl

theorem applyLive_cons (k : String) (e : OptEntry)
    (rest : List (String × OptEntry)) (now : Int) (ds : List DeviceRecord) :
    applyLive ((k, e) :: rest) now ds =
      if now - e.timestamp > OPTIMISTIC_UPDATE_DURATION then
        applyLive rest now ds
      else applyLive rest now (applyEntry ds k e.presetMode e.hvacAction) := rfl

theorem findLive_cons (k2 : String) (e2 : OptEntry)
    (rest : List (String × OptEntry)) (now : Int) (oid : Option String) :
    findLive ((k2, e2) :: rest) now oid =
      if now - e2.timestamp > OPTIMISTIC_UPDATE_DURATION then
        findLive rest now oid
      else if oid = some k2 then some e2
      else findLive rest now oid := rfl

theorem applyEntry_eq_map (device_id : String) (pm hv : Int) :
    ∀ ds : List DeviceRecord,
      ds.countP (fun d => decide (d.id = some device_id)) ≤ 1 →
      applyEntry ds device_id pm hv = ds.map (fun d =>
        if d.id = some device_id then
          { d with preset_mode := some pm, hvac_action := some hv }
        else d)
  | [], _ => rfl
  | d :: rest, h => by
    rw [List.countP_cons] at h
    by_cases hd : d.id = some device_id
    · have hz : rest.countP (fun x => decide (x.id = some device_id)) = 0 := by
        simp [hd] at h
        exact List.countP_eq_zero.mpr (by intro a ha; simpa using h a ha)
      have hrest : rest.map (fun x =>
          if x.id = some device_id then
            { x with preset_mode := some pm, hvac_action := some hv }
          else x) = rest := by
        apply map_eq_self_of_forall
        intro x hx
        have hnx := List.countP_eq_zero.mp hz x hx
        simp only [decide_eq_true_eq] at hnx
        rw [if_neg hnx]
      rw [applyEntry_cons, if_pos hd, List.map_cons, if_pos hd, hrest]
    · have hrest : rest.countP (fun x => decide (x.id = some device_id)) ≤ 1 := by
        simp [hd] at h
        omega
      rw [applyEntry_cons, if_neg hd, List.map_cons, if_neg hd,
        applyEntry_eq_map device_id pm hv rest hrest]

theorem applyEntry_ids (device_id : String) (pm hv : Int) :
    ∀ ds : List DeviceRecord,
      (applyEntry ds device_id pm hv).map (fun d => d.id) =
        ds.map (fun d => d.id)
  | [] => rfl
  | d :: rest => by
    rw [applyEntry_cons]
    by_cases hd : d.id = some device_id
    · rw [if_pos hd]
      simp only [List.map_cons]
    · rw [if_neg hd, List.map_cons, List.map_cons,
        applyEntry_ids device_id pm hv rest]

theorem countP_applyEntry (device_id k : String) (pm hv : Int)
    (ds : List DeviceRecord) :
    (applyEntry ds device_id pm hv).countP (fun d => decide (d.id = some k)) =
      ds.countP (fun d => decide (d.id = some k)) := by
  have h1 : ∀ l : List DeviceRecord,
      l.countP (fun d => decide (d.id = some k)) =
        (l.map (fun d => d.id)).countP (fun oid => decide (oid = some k)) := by
    intro l
    rw [List.countP_map]
    rfl
  rw [h1, h1, applyEntry_ids]

theorem findLive_not_mem (now : Int) (k : String) :
    ∀ U : List (String × OptEntry), k ∉ U.map Prod.fst →
      findLive U now (some k) = none
  | [], _ => rfl
  | (k2, e) :: rest, h => by
    have hk : ¬ ((some k : Option String) = some k2) := by
      intro he
      apply h
      simp only [List.map_cons, List.mem_cons]
      exact Or.inl (Option.some.inj he)
    have hrest : k ∉ rest.map Prod.fst := by
      intro hm
      apply h
      simp only [List.map_cons, List.mem_cons]
      exact Or.inr hm
    rw [findLive_cons]
    by_cases hexp : now - e.timestamp > OPTIMISTIC_UPDATE_DURATION
    · rw [if_pos hexp]
      exact findLive_not_mem now k rest hrest
    · rw [if_neg hexp, if_neg hk]
      exact findLive_not_mem now k rest hrest

theorem keys_nodup_unique :
    ∀ U : List (String × OptEntry), (U.map Prod.fst).Nodup →
      ∀ (k : String) (a b : OptEntry), (k, a) ∈ U → (k, b) ∈ U → a = b
  | [], _, k, a, b, ha, _ => by simp at ha
  | p :: rest, hnd, k, a, b, ha, hb => by
    rw [List.map_cons, List.nodup_cons] at hnd
    rcases List.mem_cons.mp ha with hah | hat <;>
      rcases List.mem_cons.mp hb with hbh | hbt
    · rw [← hah] at hbh
      injection hbh with h1 h2
      exact h2.symm
    · exact absurd (by
        rw [show p.1 = k from (congrArg Prod.fst hah).symm]
        exact List.mem_map.mpr ⟨(k, b), hbt, rfl⟩) hnd.1
    · exact absurd (by
        rw [show p.1 = k from (congrArg Prod.fst hbh).symm]
        exact List.mem_map.mpr ⟨(k, a), hat, rfl⟩) hnd.1
    · exact keys_nodup_unique rest hnd.2 k a b hat hbt

theorem findLive_mem_live (now : Int) (k : String) (e : OptEntry) :
    ∀ U : List (String × OptEntry), (U.map Prod.fst).Nodup → (k, e) ∈ U →
      now - e.timestamp ≤ OPTIMISTIC_UPDATE_DURATION →
      findLive U now (some k) = some e
  | [], _, hmem, _ => by simp at hmem
  | (k2, e2) :: rest, hnd, hmem, hlive => by
    rw [List.map_cons, List.nodup_cons] at hnd
    rcases List.mem_cons.mp hmem with heq | htail
    · injection heq with hk he
      rw [findLive_cons, if_neg (by rw [← he]; omega), if_pos (by rw [hk]), ← he]
    · have hk : ¬ ((some k : Option String) = some k2) := by
        intro hcontra
        apply hnd.1
        rw [← Option.some.inj hcontra]
        exact List.mem_map.mpr ⟨(k, e), htail, rfl⟩
      rw [findLive_cons]
      by_cases hexp : now - e2.timestamp > OPTIMISTIC_UPDATE_DURATION
      · rw [if_pos hexp]
        exact findLive_mem_live now k e rest hnd.2 htail hlive
      · rw [if_neg hexp, if_neg hk]
        exact findLive_mem_live now k e rest hnd.2 htail hlive

theorem findLive_mem_expired (now : Int) (k : String) (e : OptEntry) :
    ∀ U : List (String × OptEntry), (U.map Prod.fst).Nodup → (k, e) ∈ U →
      now - e.timestamp > OPTIMISTIC_UPDATE_DURATION →
      findLive U now (some k) = none
  | [], _, hmem, _ => by simp at hmem
  | (k2, e2) :: rest, hnd, hmem, hexp => by
    rw [List.map_cons, List.nodup_cons] at hnd
    rcases List.mem_cons.mp hmem with heq | htail
    · injection heq with hk he
      rw [findLive_cons, if_pos (by rw [← he]; omega)]
      apply findLive_not_mem
      rw [← hk] at hnd
      exact hnd.1
    · have hk : ¬ ((some k : Option String) = some k2) := by
        intro hcontra
        apply hnd.1
        rw [← Option.some.inj hcontra]
        exact List.mem_map.mpr ⟨(k, e), htail, rfl⟩
      rw [findLive_cons]
      by_cases hexp2 : now - e2.timestamp > OPTIMISTIC_UPDATE_DURATION
      · rw [if_pos hexp2]
        exact findLive_mem_expired now k e rest hnd.2 htail hexp
      · rw [if_neg hexp2, if_neg hk]
        exact findLive_mem_expired now k e rest hnd.2 htail hexp

theorem findLive_id_update (rest : List (String × OptEntry)) (now : Int)
    (d : DeviceRecord) (pm hv : Int) :
    findLive rest now
        (({ d with preset_mode := some pm,
                   hvac_action := some hv } : DeviceRecord)).id =
      findLive rest now d.id := rfl

theorem applyLive_eq_map (now : Int) :
    ∀ (U : List (String × OptEntry)) (ds : List DeviceRecord),
      (U.map Prod.fst).Nodup →
      (∀ k, ds.countP (fun d => decide (d.id = some k)) ≤ 1) →
      applyLive U now ds = ds.map (fun d =>
        match findLive U now d.id with
        | some e => { d with preset_mode := some e.presetMode,
                             hvac_action := some e.hvacAction }
        | none => d)
  | [], ds, _, _ => by
    unfold applyLive
    symm
    apply map_eq_self_of_forall
    intro d _
    rfl
  | (k, e) :: rest, ds, hnd, hcnt => by
    rw [List.map_cons, List.nodup_cons] at hnd
    by_cases hexp : now - e.timestamp > OPTIMISTIC_UPDATE_DURATION
    · rw [applyLive_cons, if_pos hexp, applyLive_eq_map now rest ds hnd.2 hcnt]
      apply List.map_congr_left
      intro d _
      rw [findLive_cons, if_pos hexp]
    · have hds2 : applyEntry ds k e.presetMode e.hvacAction = ds.map (fun d =>
          if d.id = some k then
            { d with preset_mode := some e.presetMode,
                     hvac_action := some e.hvacAction }
          else d) :=
        applyEntry_eq_map k e.presetMode e.hvacAction ds (hcnt k)
      have hcnt2 : ∀ k2, (ds.map (fun d =>
          if d.id = some k then
            { d with preset_mode := some e.presetMode,
                     hvac_action := some e.hvacAction }
          else d)).countP (fun d => decide (d.id = some k2)) ≤ 1 := by
        intro k2
        rw [← hds2, countP_applyEntry]
        exact hcnt k2
      rw [applyLive_cons, if_neg hexp, hds2,
        applyLive_eq_map now rest _ hnd.2 hcnt2, List.map_map]
      apply List.map_congr_left
      intro d _
      simp only [Function.comp_apply]
      rw [findLive_cons, if_neg hexp]
      by_cases hid : d.id = some k
      · rw [if_pos hid, if_pos hid, findLive_id_update,
          hid, findLive_not_mem now k rest hnd.1]
      · rw [if_neg hid, if_neg hid]

theorem mem_pruneExpired (U : List (String × OptEntry)) (now : Int)
    (p : String × OptEntry) :
    p ∈ pruneExpired U now ↔
      p ∈ U ∧ now - p.2.timestamp ≤ OPTIMISTIC_UPDATE_DURATION := by
  unfold pruneExpired
  rw [List.mem_filter]
  constructor
  · intro h
    refine ⟨h.1, ?_⟩
    have h2 := h.2
    simp only [Bool.not_eq_true', decide_eq_false_iff_not] at h2
    omega
  · intro h
    refine ⟨h.1, ?_⟩
    simp only [Bool.not_eq_true', decide_eq_false_iff_not]
    omega


/-! ## Dict lemmas for the optimistic map -/

theorem lookup_dictInsert_self (k : String) (v : OptEntry) :
    ∀ U : List (String × OptEntry), (dictInsert U k v).lookup k = some v
  | [] => by simp [dictInsert, List.lookup]
  | (k2, v2) :: rest => by
    unfold dictInsert
    by_cases h : k2 = k
    · rw [if_pos h]
      simp [List.lookup]
    · rw [if_neg h]
      have hb : (k == k2) = false := beq_eq_false_iff_ne.mpr (Ne.symm h)
      simp only [List.lookup, hb]
      exact lookup_dictInsert_self k v rest

theorem lookup_dictInsert_ne (k k2 : String) (v : OptEntry) (hne : k2 ≠ k) :
    ∀ U : List (String × OptEntry),
      (dictInsert U k v).lookup k2 = U.lookup k2
  | [] => by
    have hb : (k2 == k) = false := beq_eq_false_iff_ne.mpr hne
    simp [dictInsert, List.lookup, hb]
  | (k3, v3) :: rest => by
    unfold dictInsert
    by_cases h : k3 = k
    · rw [if_pos h]
      have hb : (k2 == k) = false := beq_eq_false_iff_ne.mpr hne
      have hb3 : (k2 == k3) = false := beq_eq_false_iff_ne.mpr (by rw [h]; exact hne)
      simp only [List.lookup, hb, hb3]
    · rw [if_neg h]
      simp only [List.lookup]
      cases hb : k2 == k3 with
      | true => rfl
      | false => exact lookup_dictInsert_ne k k2 v hne rest

/-! ## C8 — optimistic-overlay TTL -/

/-- C8: for an optimistic entry `(device_id, e)` recorded at
`e.timestamp` (keys of the map are unique, device ids of the snapshot
are unique), running the merge step of a successful refresh cycle at
time `now`:
with `now - t ≤ TTL` the entry survives the sweep and every matching
device record is overwritten with the predicted values; with
`now - t > TTL` no entry for that device survives and every matching
device record is returned exactly as the server reported it; and every
entry of the post-cycle map is at most TTL old, so no entry survives
the map across the cycles that apply the overlay. -/
theorem c8_optimistic_ttl (U : List (String × OptEntry))
    (ds : List DeviceRecord) (now : Int) (device_id : String) (e : OptEntry)
    (hmem : (device_id, e) ∈ U)
    (hkeys : (U.map Prod.fst).Nodup)
    (hids : ∀ k, ds.countP (fun d => decide (d.id = some k)) ≤ 1) :
    (now - e.timestamp ≤ OPTIMISTIC_UPDATE_DURATION →
      (device_id, e) ∈ pruneExpired U now ∧
      (∀ (i : Nat) (h : i < ds.length), ds[i].id = some device_id →
        (applyLive U now ds)[i]? =
          some { ds[i] with preset_mode := some e.presetMode,
                            hvac_action := some e.hvacAction })) ∧
    (now - e.timestamp > OPTIMISTIC_UPDATE_DURATION →
      (∀ p ∈ pruneExpired U now, p.1 ≠ device_id) ∧
      (∀ (i : Nat) (h : i < ds.length), ds[i].id = some device_id →
        (applyLive U now ds)[i]? = some ds[i])) ∧
    (∀ p ∈ pruneExpired U now,
      now - p.2.timestamp ≤ OPTIMISTIC_UPDATE_DURATION) := by
  have hmap := applyLive_eq_map now U ds hkeys hids
  refine ⟨?_, ?_, ?_⟩
  · intro hlive
    constructor
    · exact (mem_pruneExpired U now _).mpr ⟨hmem, hlive⟩
    · intro i h hid
      have hfl : findLive U now ds[i].id = some e := by
        rw [hid]
        exact findLive_mem_live now device_id e U hkeys hmem hlive
      rw [hmap, List.getElem?_map, List.getElem?_eq_getElem h,
        Option.map_some', hfl]
  · intro hexp
    constructor
    · intro p hp hpk
      have hp2 := (mem_pruneExpired U now p).mp hp
      have hpe : p.2 = e := by
        apply keys_nodup_unique U hkeys device_id p.2 e
        · rw [← hpk]
          exact hp2.1
        · exact hmem
      rw [hpe] at hp2
      omega
    · intro i h hid
      have hfl : findLive U now ds[i].id = none := by
        rw [hid]
        exact findLive_mem_expired now device_id e U hkeys hmem hexp
      rw [hmap, List.getElem?_map, List.getElem?_eq_getElem h,
        Option.map_some', hfl]
  · intro p hp
    exact ((mem_pruneExpired U now p).mp hp).2

/-- A single published device record used by the concrete overlay
scenarios. -/
def devW : DeviceRecord :=
  buildDevice "Home" (some "inst1") (some "room1") (some "dev1") propsDev1

/-- Witness for `c8_optimistic_ttl`: one live entry for `dev1`,
recorded at time 0 and applied at time 5. -/
theorem c8_optimistic_ttl_witness :
    ((("dev1", (⟨2, 0, 0⟩ : OptEntry)) ∈
        [(("dev1" : String), (⟨2, 0, 0⟩ : OptEntry))]) ∧
     (([(("dev1" : String), (⟨2, 0, 0⟩ : OptEntry))].map Prod.fst).Nodup)) ∧
    ((5 - (⟨2, 0, 0⟩ : OptEntry).timestamp ≤ OPTIMISTIC_UPDATE_DURATION →
      (("dev1", (⟨2, 0, 0⟩ : OptEntry)) ∈
        pruneExpired [(("dev1" : String), (⟨2, 0, 0⟩ : OptEntry))] 5) ∧
      (∀ (i : Nat) (h : i < [devW].length),
        [devW][i].id = some "dev1" →
        (applyLive [(("dev1" : String), (⟨2, 0, 0⟩ : OptEntry))] 5 [devW])[i]? =
          some { [devW][i] with
                   preset_mode := some (⟨2, 0, 0⟩ : OptEntry).presetMode,
                   hvac_action := some (⟨2, 0, 0⟩ : OptEntry).hvacAction })) ∧
     (5 - (⟨2, 0, 0⟩ : OptEntry).timestamp > OPTIMISTIC_UPDATE_DURATION →
      (∀ p ∈ pruneExpired [(("dev1" : String), (⟨2, 0, 0⟩ : OptEntry))] 5,
        p.1 ≠ "dev1") ∧
      (∀ (i : Nat) (h : i < [devW].length),
        [devW][i].id = some "dev1" →
        (applyLive [(("dev1" : String), (⟨2, 0, 0⟩ : OptEntry))] 5 [devW])[i]? =
          some [devW][i])) ∧
     (∀ p ∈ pruneExpired [(("dev1" : String), (⟨2, 0, 0⟩ : OptEntry))] 5,
       5 - p.2.timestamp ≤ OPTIMISTIC_UPDATE_DURATION)) :=
  ⟨⟨by decide, by decide⟩,
   c8_optimistic_ttl [("dev1", ⟨2, 0, 0⟩)] [devW] 5 "dev1" ⟨2, 0, 0⟩
     (by decide) (by decide)
     (fun k => by
       rw [List.countP_cons, List.countP_nil]
       split <;> omega)⟩

/-! ## C9 — adaptive polling interval rules -/

/-- C9: the interval rules in priority order.  While inside the
error-backoff window the adapt step leaves the whole state (hence the
backed-off interval) unchanged; otherwise during the startup grace
period the interval becomes the fast one regardless of activity, else
fast exactly when some device reports active heating, else the slow one
(`max(SCAN_INTERVAL, SLOW_POLL_SECONDS)`); a failing fetch makes the
cycle raise, sets the interval to the backoff duration and opens the
backoff window irrespective of the other rules; a successful cycle
computes its interval by exactly the adapt step applied to the overlaid
snapshot.  The polling constants are universally quantified (their
values are absent from the source tree). -/
theorem c9_adaptive_interval (c : PollConsts) (st : CoordState)
    (ds : List DeviceRecord) (env : DevEnv) (now : Int) (hnow : 0 ≤ now) :
    (∀ b, st.errorBackoffUntil = some b → now < b →
      adaptPollingInterval c st ds now = st) ∧
    (inBackoff st now = false →
      (now - st.startupTime < c.startupFastPeriod →
        (adaptPollingInterval c st ds now).updateInterval =
          some c.fastPollSeconds) ∧
      (c.startupFastPeriod ≤ now - st.startupTime →
        (ds.any (fun d => d.hvac_action == some HVAC_ACTION_HEATING) = true →
          (adaptPollingInterval c st ds now).updateInterval =
            some c.fastPollSeconds) ∧
        (ds.any (fun d => d.hvac_action == some HVAC_ACTION_HEATING) = false →
          (adaptPollingInterval c st ds now).updateInterval =
            some (max c.scanInterval c.slowPollSeconds)))) ∧
    ((∀ l, get_devices env ≠ .ok l) →
      (asyncUpdateData c st env now).1 = .error () ∧
      (asyncUpdateData c st env now).2.updateInterval =
        some c.errorBackoffSeconds ∧
      (asyncUpdateData c st env now).2.errorBackoffUntil =
        some (now + c.errorBackoffSeconds)) ∧
    (∀ l, get_devices env = .ok l →
      (asyncUpdateData c st env now).2.updateInterval =
        (adaptPollingInterval c
          { st with optimistic := pruneExpired st.optimistic now }
          (applyLive st.optimistic now l) now).updateInterval) := by
  refine ⟨?_, ?_, ?_, ?_⟩
  · intro b hb hlt
    have hbe : (b == 0) = false := beq_eq_false_iff_ne.mpr (by omega)
    have hib : inBackoff st now = true := by
      unfold inBackoff
      rw [hb]
      simp [hbe, hlt]
    unfold adaptPollingInterval
    rw [hib]
    simp
  · intro hnb
    constructor
    · intro hstart
      have hc : (decide (now - st.startupTime < c.startupFastPeriod) ||
          ds.any (fun d => d.hvac_action == some HVAC_ACTION_HEATING)) = true := by
        simp [hstart]
      unfold adaptPollingInterval
      simp only [hnb, Bool.false_eq_true, if_false, hc, if_true]
      by_cases hcur : (st.updateInterval == some c.fastPollSeconds) = true
      · rw [if_pos hcur]
        exact eq_of_beq hcur
      · rw [if_neg hcur]
    · intro hlate
      constructor
      · intro hheat
        have hc : (decide (now - st.startupTime < c.startupFastPeriod) ||
            ds.any (fun d => d.hvac_action == some HVAC_ACTION_HEATING)) = true := by
          simp [hheat]
        unfold adaptPollingInterval
        simp only [hnb, Bool.false_eq_true, if_false, hc, if_true]
        by_cases hcur : (st.updateInterval == some c.fastPollSeconds) = true
        · rw [if_pos hcur]
          exact eq_of_beq hcur
        · rw [if_neg hcur]
      · intro hcool
        have hc : (decide (now - st.startupTime < c.startupFastPeriod) ||
            ds.any (fun d => d.hvac_action == some HVAC_ACTION_HEATING)) = false := by
          simp only [hcool, Bool.or_false, decide_eq_false_iff_not]
          omega
        unfold adaptPollingInterval
        simp only [hnb, Bool.false_eq_true, if_false, hc]
        by_cases hcur :
            (st.updateInterval == some (max c.scanInterval c.slowPollSeconds)) = true
        · rw [if_pos hcur]
          exact eq_of_beq hcur
        · rw [if_neg hcur]
  · intro hfail
    cases hg : get_devices env with
    | ok l => exact absurd hg (hfail l)
    | error er =>
      unfold asyncUpdateData
      rw [hg]
      exact ⟨rfl, rfl, rfl⟩
  · intro l hl
    unfold asyncUpdateData
    rw [hl]

/-- Device snapshot with one actively heating device. -/
def devHeat : DeviceRecord := { devW with hvac_action := some 1 }

/-- Witness for `c9_adaptive_interval` with concrete constants, a
concrete state outside backoff and startup, and one heating device. -/
theorem c9_adaptive_interval_witness :
    ((0 : Int) ≤ 500) ∧
    ((∀ b, stC1.errorBackoffUntil = some b → 500 < b →
      adaptPollingInterval cC stC1 [devHeat] 500 = stC1) ∧
    (inBackoff stC1 500 = false →
      (500 - stC1.startupTime < cC.startupFastPeriod →
        (adaptPollingInterval cC stC1 [devHeat] 500).updateInterval =
          some cC.fastPollSeconds) ∧
      (cC.startupFastPeriod ≤ 500 - stC1.startupTime →
        ([devHeat].any (fun d => d.hvac_action == some HVAC_ACTION_HEATING) = true →
          (adaptPollingInterval cC stC1 [devHeat] 500).updateInterval =
            some cC.fastPollSeconds) ∧
        ([devHeat].any (fun d => d.hvac_action == some HVAC_ACTION_HEATING) = false →
          (adaptPollingInterval cC stC1 [devHeat] 500).updateInterval =
            some (max cC.scanInterval cC.slowPollSeconds)))) ∧
    ((∀ l, get_devices envC1 ≠ .ok l) →
      (asyncUpdateData cC stC1 envC1 500).1 = .error () ∧
      (asyncUpdateData cC stC1 envC1 500).2.updateInterval =
        some cC.errorBackoffSeconds ∧
      (asyncUpdateData cC stC1 envC1 500).2.errorBackoffUntil =
        some (500 + cC.errorBackoffSeconds)) ∧
    (∀ l, get_devices envC1 = .ok l →
      (asyncUpdateData cC stC1 envC1 500).2.updateInterval =
        (adaptPollingInterval cC
          { stC1 with optimistic := pruneExpired stC1.optimistic 500 }
          (applyLive stC1.optimistic 500 l) 500).updateInterval)) :=
  ⟨by decide, c9_adaptive_interval cC stC1 [devHeat] envC1 500 (by decide)⟩

/-! ## C10 — optimistic preset update is immediate and local -/

/-- C10: with a published snapshot whose device ids are unique and
which contains a device with the given id,
`update_device_preset_mode` — which performs no network call (it takes
no environment) — immediately rewrites exactly the matching record to
the commanded preset mode and the predicted hvac action, leaves every
other record unchanged, stores the timestamped optimistic entry under
that id without disturbing other entries, and the prediction mapping is
the fixed one: preset `off` ↦ hvac `off`, anything else ↦ `idle`. -/
theorem c10_update_preset (st : CoordState) (ds : List DeviceRecord)
    (device_id : String) (pm now : Int)
    (hdata : st.data = some ds)
    (hids : ∀ k, ds.countP (fun d => decide (d.id = some k)) ≤ 1)
    (hmem : ∃ d ∈ ds, d.id = some device_id) :
    (update_device_preset_mode st device_id pm now).data =
      some (ds.map (fun d =>
        if d.id = some device_id then
          { d with preset_mode := some pm,
                   hvac_action := some (predict_hvac_action pm) }
        else d)) ∧
    (update_device_preset_mode st device_id pm now).optimistic.lookup device_id =
      some ⟨pm, predict_hvac_action pm, now⟩ ∧
    (∀ k2, k2 ≠ device_id →
      (update_device_preset_mode st device_id pm now).optimistic.lookup k2 =
        st.optimistic.lookup k2) ∧
    (pm = PRESET_MODE_OFF → predict_hvac_action pm = HVAC_ACTION_OFF) ∧
    (pm ≠ PRESET_MODE_OFF → predict_hvac_action pm = HVAC_ACTION_IDLE) := by
  have hne : ds.isEmpty = false := by
    obtain ⟨d, hd, _⟩ := hmem
    cases ds with
    | nil => simp at hd
    | cons a l => rfl
  have hst : update_device_preset_mode st device_id pm now =
      { st with
          optimistic := dictInsert st.optimistic device_id
            ⟨pm, predict_hvac_action pm, now⟩
          data := some (applyEntry ds device_id pm
            (predict_hvac_action pm)) } := by
    unfold update_device_preset_mode
    rw [hdata]
    simp only [hne, Bool.false_eq_true, if_false]
  rw [hst]
  refine ⟨?_, ?_, ?_, ?_, ?_⟩
  · simp only []
    rw [applyEntry_eq_map device_id pm (predict_hvac_action pm) ds
      (hids device_id)]
  · exact lookup_dictInsert_self device_id _ st.optimistic
  · intro k2 h2
    exact lookup_dictInsert_ne device_id k2 _ h2 st.optimistic
  · intro h
    rw [h]
    rfl
  · intro h
    have h0 : ¬ pm = 0 := h
    unfold predict_hvac_action
    rw [if_neg h0]
    rfl

/-- Coordinator state publishing the one-device snapshot. -/
def stW : CoordState :=
  { data := some [devW], optimistic := [], startupTime := 0,
    errorBackoffUntil := none, updateInterval := some 30 }

/-- Witness for `c10_update_preset`: switch `dev1` to preset 0 (off) at
time 7. -/
theorem c10_update_preset_witness :
    (stW.data = some [devW] ∧ (∃ d ∈ [devW], d.id = some "dev1")) ∧
    ((update_device_preset_mode stW "dev1" 0 7).data =
      some ([devW].map (fun d =>
        if d.id = some "dev1" then
          { d with preset_mode := some (0 : Int),
                   hvac_action := some (predict_hvac_action 0) }
        else d)) ∧
    (update_device_preset_mode stW "dev1" 0 7).optimistic.lookup "dev1" =
      some ⟨0, predict_hvac_action 0, 7⟩ ∧
    (∀ k2, k2 ≠ "dev1" →
      (update_device_preset_mode stW "dev1" 0 7).optimistic.lookup k2 =
        stW.optimistic.lookup k2) ∧
    ((0 : Int) = PRESET_MODE_OFF → predict_hvac_action 0 = HVAC_ACTION_OFF) ∧
    ((0 : Int) ≠ PRESET_MODE_OFF → predict_hvac_action 0 = HVAC_ACTION_IDLE)) :=
  ⟨⟨rfl, ⟨devW, by simp, rfl⟩⟩,
   c10_update_preset stW [devW] "dev1" 0 7 rfl
     (fun k => by
       rw [List.countP_cons, List.countP_nil]
       split <;> omega)
     ⟨devW, by simp, rfl⟩⟩

end FenixTFT
